import Mathlib

/-!
Verification of the subprocess language session module
(`interpreter/core/computer/terminal/languages/subprocess_language.py`).

The embedding models:
  - the per-line stream demultiplexer `handle_stream_output`,
  - the drain loop and the write-retry loop of `run`,
  - `start_process`, `terminate`, and `update_subprocess_env`.

Python strings are modelled as `String`; the string operations used by the
source (`str.replace`, `in`, `str.strip`, the `re.sub` on active-line
markers) are given explicit executable semantics over `List Char`.
Environments (`os.environ.copy()` results and `self.env_vars`) are
association lists `List (String × String)`; Python `dict` equality is the
executable pointwise-lookup test `envEq`.
-/

namespace SubprocessLanguage

/-- Content of an emitted event: the Python code puts either a string
(`output` events) or an integer (`active_line` events) in `content`. -/
inductive EventContent where
  | text (s : String)
  | num (n : Nat)
deriving DecidableEq, Repr

/-- An element of `output_queue` / a value yielded by `run`:
`{"type": ..., "format": ..., "content": ...}`. -/
structure OutputEvent where
  type : String
  format : String
  content : EventContent
deriving DecidableEq, Repr

/-- Shorthand for a console `output` event. -/
def outEvt (s : String) : OutputEvent :=
  { type := "console", format := "output", content := EventContent.text s }

/-- Shorthand for a console `active_line` event. -/
def activeEvt (n : Nat) : OutputEvent :=
  { type := "console", format := "active_line", content := EventContent.num n }

/-! ### Executable semantics of the Python string operations used -/

/-- Python `tok in s` on character lists: some position starts with `tok`. -/
def containsTok (tok : List Char) : List Char → Bool
  | [] => tok.isPrefixOf []
  | c :: cs => tok.isPrefixOf (c :: cs) || containsTok tok cs

/-- Python `s.replace(tok, repl)`: leftmost, non-overlapping, the
replacement text is not rescanned.  Fuel-driven; fuel `= cs.length`
suffices because each step consumes at least one character when `tok`
is non-empty. -/
def pyReplaceAux (tok repl : List Char) : Nat → List Char → List Char
  | 0, cs => cs
  | _ + 1, [] => []
  | fuel + 1, c :: cs =>
    if tok.isPrefixOf (c :: cs) then
      repl ++ pyReplaceAux tok repl fuel (List.drop tok.length (c :: cs))
    else
      c :: pyReplaceAux tok repl fuel cs

/-- Python `s.replace(tok, repl)` on `String`. -/
def pyReplace (s tok repl : String) : String :=
  String.mk (pyReplaceAux tok.data repl.data s.data.length s.data)

/-- Python `s.strip()`: drop whitespace on both ends. -/
def pyStrip (s : String) : String :=
  String.mk
    ((((s.data.dropWhile Char.isWhitespace).reverse).dropWhile Char.isWhitespace).reverse)

/-- Python `tok in s` on `String`. -/
def pyContains (s tok : String) : Bool :=
  containsTok tok.data s.data

/-- The end-of-execution marker token. -/
def eoeTok : String := "##end_of_execution##"

/-- The active-line marker opener (the regex is `##active_line\d+##`). -/
def alOpen : List Char := ("##active_line").data

/-- Two hash marks, closing an active-line marker. -/
def alClose : List Char := ("##").data

/-- Does an active-line marker `##active_line<digits>##` start here? Returns
the total length of the match, or `none`. -/
def alMatchLen (cs : List Char) : Option Nat :=
  if alOpen.isPrefixOf cs then
    let rest := List.drop alOpen.length cs
    let ds := rest.takeWhile Char.isDigit
    if ds.length != 0 && alClose.isPrefixOf (List.drop ds.length rest) then
      some (alOpen.length + ds.length + alClose.length)
    else none
  else none

/-- `re.sub(r"##active_line\d+##", "", line)`: leftmost scan deleting each
match of the active-line marker pattern. -/
def stripALAux : Nat → List Char → List Char
  | 0, cs => cs
  | _ + 1, [] => []
  | fuel + 1, c :: cs =>
    match alMatchLen (c :: cs) with
    | some k => stripALAux fuel (List.drop k (c :: cs))
    | none => c :: stripALAux fuel cs

/-- `re.sub(r"##active_line\d+##", "", line)` on `String`. -/
def stripActiveLineMarkers (s : String) : String :=
  String.mk (stripALAux s.data.length s.data)

/-- Value of a digit character. -/
def digitVal (c : Char) : Nat := c.toNat - 48

/-- Natural number denoted by a digit run. -/
def digitsToNat (ds : List Char) : Nat :=
  ds.foldl (fun a c => a * 10 + digitVal c) 0

/-! ### The stream demultiplexer `handle_stream_output` -/

/-- The three per-language recognizers that `handle_stream_output` calls on
each line.  In the source they are overridable methods; the base class
gives `line_postprocessor = identity`, `detect_active_line = None`,
`detect_end_of_execution = None`. -/
structure Hooks where
  line_postprocessor : String → Option String
  detect_active_line : String → Option Nat
  detect_end_of_execution : String → Bool

/-- Python truthiness of `detect_active_line`'s result (`None` and `0` are
falsy, any other int truthy), as tested by `if self.detect_active_line(line):`. -/
def optTruthy : Option Nat → Bool
  | none => false
  | some n => n != 0

/-- One iteration of the loop body of `handle_stream_output`: the events it
puts on `output_queue` for this line, and whether it sets `self.done`. -/
def handleLine (hk : Hooks) (is_error_stream : Bool) (raw : String) :
    List OutputEvent × Bool :=
  match hk.line_postprocessor raw with
  | none => ([], false)
  | some line =>
    if optTruthy (hk.detect_active_line line) then
      let active_line := (hk.detect_active_line line).getD 0
      let line2 := stripActiveLineMarkers line
      (activeEvt active_line :: (if line2 != "" then [outEvt line2] else []), false)
    else if hk.detect_end_of_execution line then
      let line2 := pyStrip (pyReplace line eoeTok "")
      ((if line2 != "" then [outEvt line2] else []), true)
    else if is_error_stream && pyContains line "KeyboardInterrupt" then
      ([outEvt "KeyboardInterrupt"], true)
    else
      ([outEvt line], false)

/-- `handle_stream_output` over a whole (finite) stream of lines: the queue
contents it produces, in order, and whether `self.done` got set. -/
def handle_stream_output (hk : Hooks) (is_error_stream : Bool) :
    List String → List OutputEvent × Bool
  | [] => ([], false)
  | l :: rest =>
    let r := handleLine hk is_error_stream l
    let r2 := handle_stream_output hk is_error_stream rest
    (r.1 ++ r2.1, r.2 || r2.2)

/-- Base-class `line_postprocessor`: the identity (never discards). -/
def basePostprocessor (line : String) : Option String := some line

/-- Base-class `detect_active_line`: always `None`. -/
def baseDetectActiveLine (_line : String) : Option Nat := none

/-- Modelled from the spec: `detect_end_of_execution` of a concrete language
(not under `src/`; only the base-class default, which always returns `None`,
is). Per the marker text protocol it recognizes a line containing the
end-of-execution token `##end_of_execution##`. -/
def specDetectEndOfExecution (line : String) : Bool :=
  pyContains line eoeTok

/-- Scan for the first active-line token and extract its digits. -/
def specDetectActiveLineAux : List Char → Option Nat
  | [] => none
  | c :: cs =>
    if alOpen.isPrefixOf (c :: cs) then
      let rest := List.drop alOpen.length (c :: cs)
      let ds := rest.takeWhile Char.isDigit
      if ds.length != 0 && alClose.isPrefixOf (List.drop ds.length rest) then
        some (digitsToNat ds)
      else specDetectActiveLineAux cs
    else specDetectActiveLineAux cs

/-- Modelled from the spec: `detect_active_line` of a concrete language (not
under `src/`). Per the marker text protocol it recognizes the first
active-line token `##active_line<digits>##` in the line and returns the
digits as the marker payload. -/
def specDetectActiveLine (line : String) : Option Nat :=
  specDetectActiveLineAux line.data

/-- Hook bundle for a session with base-class postprocessing and active-line
detection, and the spec-modelled end-of-execution recognizer. -/
def eoeHooks : Hooks :=
  { line_postprocessor := basePostprocessor
    detect_active_line := baseDetectActiveLine
    detect_end_of_execution := specDetectEndOfExecution }

/-- Hook bundle for a session with base-class postprocessing and the
spec-modelled active-line and end-of-execution recognizers. -/
def markerHooks : Hooks :=
  { line_postprocessor := basePostprocessor
    detect_active_line := specDetectActiveLine
    detect_end_of_execution := specDetectEndOfExecution }

/-! ### The drain loop of `run` -/

/-- The drain loop, sequentialized: all producer activity has happened, so
the queue holds `q` and the done-signal is `done`.  Each pass yields queued
events in order; once the queue is empty, the `queue.Empty` branch checks
`self.done`: if set, the loop breaks (after its best-effort extra yanks,
which find nothing here); if not, the loop spins forever — `none` marks
that divergence. -/
def drainLoop : List OutputEvent → Bool → Option (List OutputEvent)
  | [], done => if done then some [] else none
  | e :: rest, done => (drainLoop rest done).map (fun out => e :: out)

/-! ### The write-retry loop of `run` -/

/-- Result of the write-retry phase of `run`: how many times
`start_process` was called, the events yielded while retrying, and whether
control fell through to the drain loop (`false` means `run` returned after
the maximum-retries event). -/
structure WritePhase where
  restarts : Nat
  events : List OutputEvent
  toDrain : Bool
deriving DecidableEq, Repr

/-- The diagnostic event yielded on a repeated write failure:
`f"{traceback.format_exc()}\nRetrying... ({retry_count}/{max_retries})\nRestarting process."`
with `tb` standing for the formatted traceback. -/
def diagEvt (tb : String) (rc : Nat) : OutputEvent :=
  outEvt (tb ++ "\nRetrying... (" ++ toString rc ++ "/3)\nRestarting process.")

/-- The terminal event yielded when the retry bound is exceeded. -/
def maxRetriesEvt : OutputEvent :=
  outEvt "Maximum retries reached. Could not execute code."

/-- The `while retry_count <= max_retries` loop of `run`, with
`max_retries = 3`.  `writeOk i` is whether the stdin write succeeds when
`retry_count = i`; `tb` is the formatted traceback of a failure.  On
failure the code yields the diagnostic (except when `retry_count` is 0),
restarts the process, increments the counter, and aborts with the
maximum-retries event once the counter exceeds 3.  Fuel `4` covers every
reachable iteration (`retry_count` ranges over 0..3). -/
def writeLoopAux (writeOk : Nat → Bool) (tb : String) : Nat → Nat → WritePhase
  | 0, _ => { restarts := 0, events := [], toDrain := true }
  | fuel + 1, rc =>
    if rc ≤ 3 then
      if writeOk rc then { restarts := 0, events := [], toDrain := true }
      else
        let diag := if rc != 0 then [diagEvt tb rc] else []
        if rc + 1 > 3 then
          { restarts := 1, events := diag ++ [maxRetriesEvt], toDrain := false }
        else
          let rest := writeLoopAux writeOk tb fuel (rc + 1)
          { restarts := rest.restarts + 1, events := diag ++ rest.events,
            toDrain := rest.toDrain }
    else { restarts := 0, events := [], toDrain := true }

/-- The write-retry loop entered with `retry_count = 0`. -/
def writeLoop (writeOk : Nat → Bool) (tb : String) : WritePhase :=
  writeLoopAux writeOk tb 4 0

/-- `run` after its setup phase: the write-retry loop followed (when it
breaks out) by the drain loop over queue contents `q` with done-signal
`done`.  Returns the number of restarts and the yielded events (`none`
marks a diverging drain). -/
def runAfterSetup (writeOk : Nat → Bool) (tb : String) (q : List OutputEvent)
    (done : Bool) : Nat × Option (List OutputEvent) :=
  let w := writeLoop writeOk tb
  if w.toDrain then
    (w.restarts, (drainLoop q done).map (fun out => w.events ++ out))
  else
    (w.restarts, some w.events)

/-! ### Environments, `start_process`, `update_subprocess_env`, `terminate` -/

/-- An environment mapping (`os.environ.copy()` / `self.env_vars`),
as an association list in insertion order. -/
abbrev Env := List (String × String)

/-- Python `d[k]` presence-and-value lookup. -/
def envLookup (e : Env) (k : String) : Option String :=
  List.lookup k e

/-- Python `dict` equality (`==` / `!=` between environment dicts): the two
mappings agree pointwise, irrespective of insertion order. -/
def envEq (a b : Env) : Bool :=
  List.all a (fun kv => envLookup b kv.1 == some kv.2) &&
    List.all b (fun kv => envLookup a kv.1 == some kv.2)

/-- Python `d[k] = v` on a dict snapshot: replace the value of the first
(only) occurrence of `k`, else append the new pair at the end (insertion
order semantics of `dict`). -/
def setKey : Env → String → String → Env
  | [], k, v => [(k, v)]
  | (k0, v0) :: rest, k, v =>
    if k0 = k then (k0, v) :: rest else (k0, v0) :: setKey rest k v

/-- The key set by `start_process` before spawning. -/
def pioKey : String := "PYTHONIOENCODING"

/-- `my_env = os.environ.copy(); my_env["PYTHONIOENCODING"] = "utf-8"`:
the mapping passed to `subprocess.Popen(..., env=my_env)` and stored in
`self.env_vars`. -/
def childEnv (environ : Env) : Env :=
  setKey environ pioKey "utf-8"

/-- The mutable session state touched by the setup phase of `run`:
whether `self.process` is set, and `self.env_vars`. -/
structure SessionState where
  processAlive : Bool
  env_vars : Env

/-- `start_process` (environment aspect): records the duplicated-and-
amended environment in `self.env_vars`, spawns the child with that same
mapping, and marks the process alive. -/
def start_process (environ : Env) : SessionState × Env :=
  ({ processAlive := true, env_vars := childEnv environ }, childEnv environ)

/-- `update_subprocess_env(current_env)`: for a session whose `name`
attribute is "Shell" (`getattr(self, "name", None)` modelled as
`Option String`), accumulate one export statement per key of
`current_env` that is absent from or different in `self.env_vars`, write
the accumulated code plus a newline to stdin, and replace the snapshot;
for every other session kind, return before writing or updating anything.
Result: the stdin write performed (`none` = no write) and the new
`self.env_vars`. -/
def update_subprocess_env (name : Option String) (env_vars current_env : Env) :
    Option String × Env :=
  if name = some "Shell" then
    let changed := current_env.filter
      (fun kv => envLookup env_vars kv.1 != some kv.2)
    let code := String.join (changed.map
      (fun kv => "export " ++ kv.1 ++ "=\x27" ++ kv.2 ++ "\x27\n"))
    (some (code ++ "\n"), current_env)
  else (none, env_vars)

/-- The setup phase of `run` (environment aspect): start the process when
none exists (`is_new`), else compare `self.env_vars` to
`os.environ.copy()` with dict inequality and invoke the Environment
Synchronizer on a difference.  Result: the new session state and the
synchronizer's stdin write, if any. -/
def runSetup (name : Option String) (environ : Env) (st : SessionState) :
    SessionState × Option String :=
  if st.processAlive then
    if envEq st.env_vars environ then (st, none)
    else
      let r := update_subprocess_env name st.env_vars environ
      ({ st with env_vars := r.2 }, r.1)
  else ((start_process environ).1, none)

/-- The session state before the first `run`: no process, empty snapshot
(`self.env_vars = {}` from `__init__`). -/
def initialState : SessionState :=
  { processAlive := false, env_vars := [] }

/-- Two consecutive `run` setup phases with the same caller environment:
the state after the second call and the synchronizer write of the second
call. -/
def twoRunSetups (name : Option String) (environ : Env) :
    SessionState × Option String :=
  runSetup name environ (runSetup name environ initialState).1

/-- Two consecutive synchronizer calls with the same `current_env`:
the write performed by the second call. -/
def syncTwiceWrite (name : Option String) (env0 current_env : Env) :
    Option String :=
  (update_subprocess_env name
      (update_subprocess_env name env0 current_env).2 current_env).1

/-- Outcome of one fallible Python call: normal return or a raised
exception carrying a description. -/
abbrev PyOutcome := Except String Unit

/-- `terminate()`: when `self.process` is set, run `process.terminate()`,
`process.stdin.close()`, `process.stdout.close()` in order; the body has
no exception handler, so the first raising call propagates.  When no
process is set, do nothing.  The three outcomes are the behaviors of the
underlying library calls in the session's current state. -/
def terminate (processSet : Bool)
    (terminateOutcome stdinCloseOutcome stdoutCloseOutcome : PyOutcome) :
    PyOutcome :=
  if processSet then
    match terminateOutcome with
    | Except.error e => Except.error e
    | Except.ok _ =>
      match stdinCloseOutcome with
      | Except.error e => Except.error e
      | Except.ok _ => stdoutCloseOutcome
  else Except.ok ()

/-- An environment snapshot with no repeated variable names (every
`os.environ.copy()` result has this shape, since Python dict keys are
unique). -/
abbrev nodupKeys (e : Env) : Prop := (e.map Prod.fst).Nodup

/-! ### Helper lemmas -/

theorem drainLoop_done (q : List OutputEvent) : drainLoop q true = some q := by
  induction q with
  | nil => rfl
  | cons e rest ih => simp [drainLoop, ih]

theorem envLookup_cons (k0 v0 : String) (rest : Env) (k : String) :
    envLookup ((k0, v0) :: rest) k = if k = k0 then some v0 else envLookup rest k := by
  by_cases h : k = k0
  · simp [envLookup, List.lookup, h]
  · have hb : (k == k0) = false := beq_eq_false_iff_ne.mpr h
    simp [envLookup, List.lookup, hb, h]

theorem envLookup_of_mem (e : Env) (k v : String)
    (hm : (k, v) ∈ e) (hn : nodupKeys e) : envLookup e k = some v := by
  induction e with
  | nil => cases hm
  | cons kv rest ih =>
    obtain ⟨k0, v0⟩ := kv
    rw [envLookup_cons]
    rcases List.mem_cons.mp hm with heq | hrest
    · injection heq with hk hv
      subst hk
      subst hv
      simp
    · have hk : k ≠ k0 := by
        intro hkk
        subst hkk
        have : k ∈ rest.map Prod.fst := List.mem_map.mpr ⟨(k, v), hrest, rfl⟩
        exact (List.nodup_cons.mp hn).1 this
      rw [if_neg hk]
      exact ih hrest (List.nodup_cons.mp hn).2

theorem envLookup_append_left (e1 e2 : Env) (k v : String)
    (h : envLookup e1 k = some v) : envLookup (e1 ++ e2) k = some v := by
  induction e1 with
  | nil => simp [envLookup, List.lookup] at h
  | cons kv rest ih =>
    obtain ⟨k0, v0⟩ := kv
    rw [envLookup_cons] at h
    rw [List.cons_append, envLookup_cons]
    by_cases hk : k = k0
    · rwa [if_pos hk] at h ⊢
    · rw [if_neg hk] at h ⊢
      exact ih h

theorem envEq_refl (e : Env) (hn : nodupKeys e) : envEq e e = true := by
  have h : ∀ kv ∈ e, (envLookup e kv.1 == some kv.2) = true := by
    intro kv hm
    exact beq_iff_eq.mpr (envLookup_of_mem e kv.1 kv.2 hm hn)
  simp only [envEq, Bool.and_eq_true, List.all_eq_true]
  exact ⟨h, h⟩

theorem setKey_eq_of_lookup (e : Env) (k v : String)
    (h : envLookup e k = some v) : setKey e k v = e := by
  induction e with
  | nil => simp [envLookup, List.lookup] at h
  | cons kv rest ih =>
    obtain ⟨k0, v0⟩ := kv
    rw [envLookup_cons] at h
    by_cases hk : k = k0
    · rw [if_pos hk] at h
      injection h with hv
      subst hk
      subst hv
      simp [setKey]
    · rw [if_neg hk] at h
      have : ¬(k0 = k) := fun hh => hk hh.symm
      simp [setKey, this, ih h]

theorem setKey_append_of_lookup_none (e : Env) (k v : String)
    (h : envLookup e k = none) : setKey e k v = e ++ [(k, v)] := by
  induction e with
  | nil => rfl
  | cons kv rest ih =>
    obtain ⟨k0, v0⟩ := kv
    rw [envLookup_cons] at h
    by_cases hk : k = k0
    · rw [if_pos hk] at h
      cases h
    · rw [if_neg hk] at h
      have : ¬(k0 = k) := fun hh => hk hh.symm
      simp [setKey, this, ih h]

theorem envLookup_setKey_self (e : Env) (k v : String) :
    envLookup (setKey e k v) k = some v := by
  induction e with
  | nil => simp [setKey, envLookup_cons]
  | cons kv rest ih =>
    obtain ⟨k0, v0⟩ := kv
    by_cases hk : k0 = k
    · simp [setKey, hk, envLookup_cons]
    · have hk2 : k ≠ k0 := fun hh => hk hh.symm
      simp [setKey, hk, envLookup_cons, hk2, ih]

theorem mem_setKey_self (e : Env) (k v : String) : (k, v) ∈ setKey e k v := by
  induction e with
  | nil => exact List.mem_singleton.mpr rfl
  | cons kv rest ih =>
    obtain ⟨k0, v0⟩ := kv
    by_cases hk : k0 = k
    · simp [setKey, hk]
    · simp only [setKey, if_neg hk]
      exact List.mem_cons_of_mem _ ih

/-- A Shell-session synchronizer call whose `current_env` is pointwise
contained in the stored snapshot accumulates no export statements: the
write is the bare terminating newline. -/
theorem update_shell_no_diff (env_vars current_env : Env)
    (h : ∀ kv ∈ current_env, envLookup env_vars kv.1 = some kv.2) :
    update_subprocess_env (some "Shell") env_vars current_env =
      (some "\n", current_env) := by
  have hfil : current_env.filter
      (fun kv => envLookup env_vars kv.1 != some kv.2) = [] := by
    apply List.filter_eq_nil_iff.mpr
    intro kv hm
    simp [h kv hm]
  simp [update_subprocess_env, hfil]
  rfl

/-- Congruence for the write-retry loop: the loop consults the write
outcome only for `retry_count` values 0..3. -/
theorem writeLoopAux_congr (w w' : Nat → Bool) (tb : String)
    (h : ∀ i, i ≤ 3 → w i = w' i) :
    ∀ fuel rc, writeLoopAux w tb fuel rc = writeLoopAux w' tb fuel rc := by
  intro fuel
  induction fuel with
  | zero => intro rc; rfl
  | succ f ih =>
    intro rc
    by_cases hrc : rc ≤ 3
    · simp only [writeLoopAux, if_pos hrc, h rc hrc, ih (rc + 1)]
    · simp only [writeLoopAux, if_neg hrc]

/-! ### Claim theorems -/

/-- C1: in `run(code)`, stdin write failure on attempts 1 and 2 with
success on attempt 3 restarts the process exactly twice and still
delivers the eventual queued output; the loop never consults a write
outcome beyond `retry_count = 3`; and four consecutive failures end the
call with the maximum-retries `output` event as the final yielded event,
with nothing after it. -/
theorem run_retry_bound_and_delivery :
    (∀ (w : Nat → Bool) (tb : String) (q : List OutputEvent),
      w 0 = false → w 1 = false → w 2 = true →
      runAfterSetup w tb q true = (2, some (diagEvt tb 1 :: q)))
    ∧ (∀ (w : Nat → Bool) (tb : String) (q : List OutputEvent) (done : Bool),
      w 0 = false → w 1 = false → w 2 = false → w 3 = false →
      runAfterSetup w tb q done =
        (4, some [diagEvt tb 1, diagEvt tb 2, diagEvt tb 3, maxRetriesEvt]))
    ∧ (∀ (w w' : Nat → Bool) (tb : String),
      (∀ i, i ≤ 3 → w i = w' i) → writeLoop w tb = writeLoop w' tb) := by
  refine ⟨?_, ?_, ?_⟩
  · intro w tb q h0 h1 h2
    have hw : writeLoop w tb =
        { restarts := 2, events := [diagEvt tb 1], toDrain := true } := by
      simp [writeLoop, writeLoopAux, h0, h1, h2]
    simp [runAfterSetup, hw, drainLoop_done]
  · intro w tb q done h0 h1 h2 h3
    have hw : writeLoop w tb =
        { restarts := 4,
          events := [diagEvt tb 1, diagEvt tb 2, diagEvt tb 3, maxRetriesEvt],
          toDrain := false } := by
      simp [writeLoop, writeLoopAux, h0, h1, h2, h3]
    simp [runAfterSetup, hw]
  · intro w w' tb h
    exact writeLoopAux_congr w w' tb h 4 0

/-- C1 witness: the retry theorem at concrete inputs. -/
theorem run_retry_bound_and_delivery_wit :
    runAfterSetup (fun i => i == 2) "T" [outEvt "ok"] true =
      (2, some [diagEvt "T" 1, outEvt "ok"])
    ∧ runAfterSetup (fun _ => false) "T" [outEvt "lost"] true =
      (4, some [diagEvt "T" 1, diagEvt "T" 2, diagEvt "T" 3, maxRetriesEvt]) :=
  ⟨run_retry_bound_and_delivery.1 (fun i => i == 2) "T" [outEvt "ok"] rfl rfl rfl,
   run_retry_bound_and_delivery.2.1 (fun _ => false) "T" [outEvt "lost"] true
     rfl rfl rfl rfl⟩

/-- C2: if some line of the session's output stream satisfies
`detect_end_of_execution` (here the spec-modelled marker recognizer, with
the base-class postprocessor and active-line detector), the done-signal is
set, so the drain loop of `run` terminates and yields the queued events
rather than looping forever. -/
theorem run_terminates_on_end_marker (lines : List String)
    (h : ∃ l ∈ lines, specDetectEndOfExecution l = true) :
    (handle_stream_output eoeHooks false lines).2 = true
    ∧ drainLoop (handle_stream_output eoeHooks false lines).1
        (handle_stream_output eoeHooks false lines).2 =
        some (handle_stream_output eoeHooks false lines).1 := by
  have hdone : (handle_stream_output eoeHooks false lines).2 = true := by
    obtain ⟨l, hl, hm⟩ := h
    induction lines with
    | nil => cases hl
    | cons x rest ih =>
      rcases List.mem_cons.mp hl with heq | hrest
      · subst heq
        have : (handleLine eoeHooks false l).2 = true := by
          simp [handleLine, eoeHooks, basePostprocessor, baseDetectActiveLine,
            optTruthy, hm]
        simp [handle_stream_output, this]
      · simp [handle_stream_output, ih hrest]
  exact ⟨hdone, by rw [hdone, drainLoop_done]⟩

/-- C2 witness: a one-line stream carrying the end-of-execution marker. -/
theorem run_terminates_on_end_marker_wit :
    (handle_stream_output eoeHooks false ["##end_of_execution##"]).2 = true
    ∧ drainLoop (handle_stream_output eoeHooks false ["##end_of_execution##"]).1
        (handle_stream_output eoeHooks false ["##end_of_execution##"]).2 =
        some (handle_stream_output eoeHooks false ["##end_of_execution##"]).1 :=
  run_terminates_on_end_marker ["##end_of_execution##"]
    ⟨"##end_of_execution##", List.mem_singleton.mpr rfl, by decide⟩

/-- C3 counterexample: the end-of-execution branch deletes the token's
occurrences in one left-to-right pass, which on the line
`##end_of_##end_of_execution##execution##` re-concatenates the remaining
fragments into a fresh token, so the marker token itself is emitted as
`output` event content. -/
theorem end_marker_token_emitted_cex :
    (handleLine eoeHooks false ("##end_of_##end_of_execution##execution##")).1 =
      [outEvt eoeTok]
    ∧ outEvt ("##end_of_execution##") ∈
      (handleLine eoeHooks false ("##end_of_##end_of_execution##execution##")).1 := by
  decide

/-- C3 (amended): for every line that survives the postprocessor and is
not matched by `detect_active_line` but is matched by
`detect_end_of_execution`, the demultiplexer removes the occurrences of
`##end_of_execution##`, trims whitespace, emits the residual as an
`output` event exactly when it is non-empty, and sets the done-signal. -/
theorem end_of_execution_branch_behavior (hk : Hooks) (is_error_stream : Bool)
    (raw line : String)
    (hpp : hk.line_postprocessor raw = some line)
    (hal : optTruthy (hk.detect_active_line line) = false)
    (heoe : hk.detect_end_of_execution line = true) :
    handleLine hk is_error_stream raw =
      ((if pyStrip (pyReplace line eoeTok "") != "" then
          [outEvt (pyStrip (pyReplace line eoeTok ""))]
        else []), true) := by
  simp [handleLine, hpp, hal, heoe]

/-- C3 witness: the end-of-execution branch on a marker line with leading
text. -/
theorem end_of_execution_branch_behavior_wit :
    handleLine eoeHooks false ("abc ##end_of_execution##") = ([outEvt "abc"], true) := by
  rw [end_of_execution_branch_behavior eoeHooks false ("abc ##end_of_execution##")
    ("abc ##end_of_execution##") rfl rfl (by decide)]
  decide

/-- C4 counterexample: on the line `x=1##active_line3## done` the second
event's content is not `" done"` — the `re.sub` excises only the marker
token, so the text before the marker is kept and the content is
`"x=1 done"`. -/
theorem active_line_trailing_text_cex :
    (handleLine markerHooks false ("x=1##active_line3## done")).1 ≠
      [activeEvt 3, outEvt (" done")] := by
  decide

/-- C4 (amended): on the line `x=1##active_line3## done` (for which
`detect_active_line` returns 3) the demultiplexer emits an `active_line`
event with payload 3 followed by an `output` event with content
`"x=1 done"`: the marker is excised and all surrounding text, including
the `x=1` before the marker, is preserved. -/
theorem active_line_trailing_text_events :
    specDetectActiveLine ("x=1##active_line3## done") = some 3
    ∧ handleLine markerHooks false ("x=1##active_line3## done") =
      ([activeEvt 3, outEvt ("x=1 done")], false) := by
  decide

/-- C5: consuming the line `##active_line7##` (for which
`detect_active_line` returns 7) yields exactly one `active_line` event
with payload 7 and no `output` event, since the residual after excising
the marker is empty. -/
theorem active_line_marker_only_events :
    specDetectActiveLine ("##active_line7##") = some 7
    ∧ handleLine markerHooks false ("##active_line7##") = ([activeEvt 7], false) := by
  decide

/-- C6 counterexample: for a Shell session, a second synchronizer call
with an unchanged environment still performs a stdin write — the
accumulated (empty) code plus the unconditional trailing newline. -/
theorem sync_twice_writes_newline_cex :
    syncTwiceWrite (some "Shell") [] [("A", "1")] = some ("\n")
    ∧ syncTwiceWrite (some "Shell") [] [("A", "1")] ≠ none := by
  decide

/-- C6 (amended): a second synchronizer call with an environment equal to
the stored snapshot writes no assignment statements: for a Shell session
the write is exactly the bare terminating newline, and for every other
session kind nothing is written at all. -/
theorem sync_twice_no_assignments (name : Option String) (env0 current_env : Env)
    (hn : nodupKeys current_env) :
    (name = some "Shell" → syncTwiceWrite name env0 current_env = some ("\n"))
    ∧ (name ≠ some "Shell" → syncTwiceWrite name env0 current_env = none) := by
  constructor
  · intro hname
    subst hname
    have hsnap : (update_subprocess_env (some "Shell") env0 current_env).2 =
        current_env := by
      simp [update_subprocess_env]
    have hpt : ∀ kv ∈ current_env, envLookup current_env kv.1 = some kv.2 :=
      fun kv hm => envLookup_of_mem current_env kv.1 kv.2 hm hn
    rw [syncTwiceWrite, hsnap, update_shell_no_diff current_env current_env hpt]
  · intro hname
    simp [syncTwiceWrite, update_subprocess_env, hname]

/-- C6 witness: the amended synchronizer-idempotence theorem at concrete
environments, for a Shell and a non-Shell session. -/
theorem sync_twice_no_assignments_wit :
    syncTwiceWrite (some "Shell") [("B", "2")] [("A", "1")] = some ("\n")
    ∧ syncTwiceWrite (some "Ruby") [] [("A", "1")] = none :=
  ⟨(sync_twice_no_assignments (some "Shell") [("B", "2")] [("A", "1")]
      (by decide)).1 rfl,
   (sync_twice_no_assignments (some "Ruby") [] [("A", "1")] (by decide)).2
      (by decide)⟩

/-- C7 counterexample: a Shell session whose caller environment lacks
`PYTHONIOENCODING` does get an Environment Synchronizer stdin write on
the second consecutive `run` call — `start_process` stored the snapshot
with `PYTHONIOENCODING=utf-8` added, so the dict comparison fires and the
synchronizer writes its bare newline. -/
theorem second_run_sync_write_cex :
    (twoRunSetups (some "Shell") [("A", "1")]).2 = some ("\n")
    ∧ (twoRunSetups (some "Shell") [("A", "1")]).2 ≠ none := by
  decide

/-- After the first `run` setup (which starts the process), the session
state holds the amended child environment, so the second setup acts on
that state. -/
theorem twoRunSetups_eq (name : Option String) (environ : Env) :
    twoRunSetups name environ =
      runSetup name environ { processAlive := true, env_vars := childEnv environ } :=
  rfl

/-- C7 (amended): on the second of two consecutive `run` calls with an
unchanged caller environment, the Environment Synchronizer writes nothing
when the environment already maps `PYTHONIOENCODING` to `utf-8`, and
nothing for a non-Shell session; for a Shell session whose environment
lacks `PYTHONIOENCODING` it performs one write consisting of the bare
terminating newline (no assignment statements). -/
theorem second_run_sync_writes (name : Option String) (environ : Env)
    (hn : nodupKeys environ) :
    (envLookup environ pioKey = some "utf-8" →
      (twoRunSetups name environ).2 = none)
    ∧ (name ≠ some "Shell" → (twoRunSetups name environ).2 = none)
    ∧ (name = some "Shell" → envLookup environ pioKey = none →
      (twoRunSetups name environ).2 = some ("\n")) := by
  rw [twoRunSetups_eq]
  refine ⟨?_, ?_, ?_⟩
  · intro hpio
    have hch : childEnv environ = environ :=
      setKey_eq_of_lookup environ pioKey "utf-8" hpio
    simp [runSetup, hch, envEq_refl environ hn]
  · intro hname
    cases hEq : envEq (childEnv environ) environ
    · simp [runSetup, hEq, update_subprocess_env, hname]
    · simp [runSetup, hEq]
  · intro hname hpio
    subst hname
    have hmem : (pioKey, "utf-8") ∈ childEnv environ :=
      mem_setKey_self environ pioKey "utf-8"
    have hEq : envEq (childEnv environ) environ = false := by
      cases hEq : envEq (childEnv environ) environ
      · rfl
      · exfalso
        have hall := (Bool.and_eq_true _ _ |>.mp hEq).1
        have := (List.all_eq_true.mp hall) (pioKey, "utf-8") hmem
        rw [beq_iff_eq.mp this] at hpio
        cases hpio
    have happ : childEnv environ = environ ++ [(pioKey, "utf-8")] :=
      setKey_append_of_lookup_none environ pioKey "utf-8" hpio
    have hpt : ∀ kv ∈ environ, envLookup (childEnv environ) kv.1 = some kv.2 := by
      intro kv hm
      rw [happ]
      exact envLookup_append_left environ [(pioKey, "utf-8")] kv.1 kv.2
        (envLookup_of_mem environ kv.1 kv.2 hm hn)
    simp [runSetup, hEq, update_shell_no_diff (childEnv environ) environ hpt]

/-- C7 witness: the amended second-run theorem at concrete environments:
an environment already carrying `PYTHONIOENCODING=utf-8`, a non-Shell
session, and a Shell session without `PYTHONIOENCODING`. -/
theorem second_run_sync_writes_wit :
    (twoRunSetups (some "Shell") [("A", "1"), ("PYTHONIOENCODING", "utf-8")]).2 = none
    ∧ (twoRunSetups (some "Python") [("A", "1")]).2 = none
    ∧ (twoRunSetups (some "Shell") [("B", "2")]).2 = some ("\n") :=
  ⟨(second_run_sync_writes (some "Shell")
      [("A", "1"), ("PYTHONIOENCODING", "utf-8")] (by decide)).1 (by decide),
   (second_run_sync_writes (some "Python") [("A", "1")] (by decide)).2.1
      (by decide),
   (second_run_sync_writes (some "Shell") [("B", "2")] (by decide)).2.2 rfl
      (by decide)⟩

/-- C8 counterexample: `terminate()` has no exception handler, so a
failing `process.terminate()` call propagates to the caller instead of
being swallowed. -/
theorem terminate_can_raise_cex :
    terminate true (Except.error "OSError") (Except.ok ()) (Except.ok ()) ≠
      Except.ok () := by
  simp [terminate]

/-- C8 (amended): `terminate()` raises nothing when `self.process` is not
set; when it is set, the call returns normally exactly when all three
underlying operations (`process.terminate()`, `stdin.close()`,
`stdout.close()`) do — a failure of any of them propagates, since the
body contains no exception handling. -/
theorem terminate_raises_iff (a b c : PyOutcome) :
    terminate false a b c = Except.ok ()
    ∧ (terminate true a b c = Except.ok () ↔
        a = Except.ok () ∧ b = Except.ok () ∧ c = Except.ok ()) := by
  constructor
  · rfl
  · rcases a with e | u
    · simp [terminate]
    · cases u
      rcases b with e | u
      · simp [terminate]
      · cases u
        rcases c with e | u
        · simp [terminate]
        · cases u
          simp [terminate]

/-- C9 counterexample: the mapping handed to `subprocess.Popen` is not
exactly `os.environ`'s contents — for `os.environ = {A: 1}` the child
environment additionally carries `PYTHONIOENCODING=utf-8`, and the two
differ even as dicts. -/
theorem child_env_not_exact_cex :
    (start_process [("A", "1")]).2 ≠ [("A", "1")]
    ∧ envEq (start_process [("A", "1")]).2 [("A", "1")] = false := by
  decide

/-- C9 (amended): `start_process` passes the child a duplicated copy of
the current process environment with `PYTHONIOENCODING` set to `utf-8`
(the same mapping it stores in `self.env_vars`); that mapping always has
`PYTHONIOENCODING = utf-8`, and it equals `os.environ`'s contents exactly
when `os.environ` itself already maps `PYTHONIOENCODING` to `utf-8`. -/
theorem child_env_characterization (environ : Env) (hn : nodupKeys environ) :
    (start_process environ).2 = childEnv environ
    ∧ (start_process environ).1.env_vars = childEnv environ
    ∧ envLookup (childEnv environ) pioKey = some "utf-8"
    ∧ (envEq (childEnv environ) environ = true ↔
        envLookup environ pioKey = some "utf-8") := by
  refine ⟨rfl, rfl, envLookup_setKey_self environ pioKey "utf-8", ?_, ?_⟩
  · intro hEq
    have hall := (Bool.and_eq_true _ _ |>.mp hEq).1
    have := (List.all_eq_true.mp hall) (pioKey, "utf-8")
      (mem_setKey_self environ pioKey "utf-8")
    exact beq_iff_eq.mp this
  · intro hpio
    rw [childEnv, setKey_eq_of_lookup environ pioKey "utf-8" hpio]
    exact envEq_refl environ hn

/-- C9 witness: the child-environment characterization at a concrete
environment lacking `PYTHONIOENCODING`. -/
theorem child_env_characterization_wit :
    (start_process [("A", "1")]).2 = childEnv [("A", "1")]
    ∧ (start_process [("A", "1")]).1.env_vars = childEnv [("A", "1")]
    ∧ envLookup (childEnv [("A", "1")]) pioKey = some "utf-8"
    ∧ (envEq (childEnv [("A", "1")]) [("A", "1")] = true ↔
        envLookup [("A", "1")] pioKey = some "utf-8") :=
  child_env_characterization [("A", "1")] (by decide)

/-- C10: for every session kind other than "Shell" (including a session
with no `name` attribute), `update_subprocess_env` returns without
writing to stdin and leaves the stored snapshot `env_vars` unchanged. -/
theorem non_shell_sync_noop (name : Option String) (env_vars current_env : Env)
    (hname : name ≠ some "Shell") :
    update_subprocess_env name env_vars current_env = (none, env_vars) := by
  simp [update_subprocess_env, hname]

/-- C10 witness: the non-Shell no-op theorem for a Python session with a
changed environment. -/
theorem non_shell_sync_noop_wit :
    update_subprocess_env (some "Python") [("A", "1")] [("B", "2")] =
      (none, [("A", "1")]) :=
  non_shell_sync_noop (some "Python") [("A", "1")] [("B", "2")] (by decide)

end SubprocessLanguage
